import Mathlib

set_option maxHeartbeats 1000000

/-!
Verification of `src/Data Generation/Refactored/retrieve_matches.py`.

The script is embedded shallowly: the remote match service (`cassiopeia.get_match`)
becomes a function `Int → Match`, the side effects of one loop iteration (sleeping,
printing, opening the output file, writing a CSV row, closing the file) become an
explicit event trace, and the unbounded `while` loop is run on explicit fuel, with
`none` meaning the run did not complete within the fuel.
-/

namespace RetrieveMatches

/-- A single CSV cell value: the Python `csv.writer` receives strings, integers and
booleans from this script. -/
inductive Field where
  | str (s : String)
  | int (n : Int)
  | bool (b : Bool)
deriving DecidableEq

/-- Modelled from the spec: the game-mode enumeration exposed by the remote client
(`cassiopeia.data.GameMode`), which is not part of this repository. The script only
distinguishes `classic` from everything else. -/
inductive GameMode where
  | classic
  | other (name : String)
deriving DecidableEq

/-- Modelled from the spec: the queue enumeration exposed by the remote client
(`cassiopeia.data.Queue`), which is not part of this repository. The script only
distinguishes `ranked_solo_fives` from everything else. -/
inductive Queue where
  | ranked_solo_fives
  | other (name : String)
deriving DecidableEq

/-- Modelled from the spec: a team's side object; the script reads `team.side.name`. -/
structure Side where
  name : String
deriving DecidableEq

/-- Modelled from the spec: a champion object; the script reads `champion.name`. -/
structure Champion where
  name : String
deriving DecidableEq

/-- Modelled from the spec: a participant object; the script reads
`participant.champion.name`. -/
structure Participant where
  champion : Champion
deriving DecidableEq

/-- Modelled from the spec: a banned-champion object; the script reads `ban.name`,
and a ban slot may be `None` (absent). -/
structure Ban where
  name : String
deriving DecidableEq

/-- Modelled from the spec (section 3): one side of a match with its roster, bans and
objective statistics, exactly the attributes the script reads. -/
structure Team where
  side : Side
  win : Bool
  bans : List (Option Ban)
  participants : List Participant
  tower_kills : Int
  inhibitor_kills : Int
  dragon_kills : Int
  rift_herald_kills : Int
  baron_kills : Int
  first_tower : Bool
  first_inhibitor : Bool
  first_dragon : Bool
  first_rift_herald : Bool
  first_baron : Bool
deriving DecidableEq

/-- Modelled from the spec (section 3): a match record as returned by
`cassiopeia.get_match`, with the attributes the script reads. `existsFlag` is the
Python attribute `match.exists` (`exists` is a Lean keyword). -/
structure Match where
  id : Int
  version : String
  existsFlag : Bool
  mode : GameMode
  queue : Queue
  blue_team : Team
  red_team : Team
deriving DecidableEq

/-- The spec's data model (section 3) fixes five ban slots (nullable per slot) and a
roster of five participants per team; the remote service guarantees this shape. -/
def Team.wellFormed (t : Team) : Prop :=
  t.bans.length = 5 ∧ t.participants.length = 5

instance (t : Team) : Decidable t.wellFormed := by
  unfold Team.wellFormed
  infer_instance

/-- The header row written once at the top of the output file
(`retrieve_matches.py` lines 77-81). -/
def headerRow : List Field :=
  [Field.str "id", Field.str "version", Field.str "side", Field.str "win",
   Field.str "ban1", Field.str "ban2", Field.str "ban3", Field.str "ban4",
   Field.str "ban5", Field.str "champion1", Field.str "champion2",
   Field.str "champion3", Field.str "champion4", Field.str "champion5",
   Field.str "tower_kills", Field.str "inhibitor_kills", Field.str "dragon_kills",
   Field.str "rift_herald_kills", Field.str "baron_kills", Field.str "first_tower",
   Field.str "first_inhibitor", Field.str "first_dragon",
   Field.str "first_rift_herald", Field.str "first_baron"]

/-- The row built by the body of `get_team_stats` (lines 25-36) for a resolved team:
`team_info` extended by `bans`, `players` and `team_stats`, in that order. -/
def team_row (m : Match) (team : Team) : List Field :=
  let team_info := [Field.int m.id, Field.str m.version,
                    Field.str team.side.name, Field.bool team.win]
  let bans := team.bans.map (fun ban =>
    match ban with
    | some b => Field.str b.name
    | none => Field.str "")
  let players := team.participants.map (fun p => Field.str p.champion.name)
  let team_stats := [Field.int team.tower_kills, Field.int team.inhibitor_kills,
                     Field.int team.dragon_kills, Field.int team.rift_herald_kills,
                     Field.int team.baron_kills, Field.bool team.first_tower,
                     Field.bool team.first_inhibitor, Field.bool team.first_dragon,
                     Field.bool team.first_rift_herald, Field.bool team.first_baron]
  team_info ++ bans ++ players ++ team_stats

/-- Error message raised by `get_team_stats` for an unknown team selector (line 23). -/
def unknownTeamMsg : String :=
  "Unknown team color given (must pick \x27red\x27 or \x27blue\x27)."

/-- `get_team_stats` (lines 10-36): resolve the selector string to a team (raising
`ValueError`, modelled as `Except.error`, for anything other than `red`/`blue`) and
return the flattened statistics row. -/
def get_team_stats (team : String) (m : Match) : Except String (List Field) :=
  if team = "red" then
    Except.ok (team_row m m.red_team)
  else if team = "blue" then
    Except.ok (team_row m m.blue_team)
  else
    Except.error unknownTeamMsg

/-- One observable side effect of the retrieval loop: sleeping, printing a progress
message, or a file operation on the output file. -/
inductive Event where
  | slept (seconds : Int)
  | printed (msg : String)
  | fileOpened
  | wroteRow (row : List Field)
  | fileClosed
deriving DecidableEq

/-- The loop's mutable state: `read_records` (accepted-match counter, line 57) and
`current_id` (the match id being probed, line 58). -/
structure LoopState where
  read_records : Int
  current_id : Int
deriving DecidableEq

/-- The acceptance filter of the loop (lines 64-68): the match exists, its mode is
classic and its queue is ranked solo fives. -/
def accepts (m : Match) : Bool :=
  m.existsFlag && (m.mode == GameMode.classic && m.queue == Queue.ranked_solo_fives)

/-- One iteration of the `while` body (lines 59-91): sleep, fetch the match for
`current_id`, then either print a rejection message, or open the file, write the
header when `read_records == 0`, write the blue-team row then the red-team row,
close the file and increment `read_records`. In every case `current_id` is
decremented afterwards. An exception from `get_team_stats` would propagate
(`Except.error`). -/
def step (env : Int → Match) (max_records sleep_time : Int) (s : LoopState) :
    Except String (LoopState × List Event) :=
  let m := env s.current_id
  if !m.existsFlag then
    Except.ok ({ s with current_id := s.current_id - 1 },
      [Event.slept sleep_time,
       Event.printed ("Match ID " ++ toString m.id ++ " does not exist.")])
  else if m.mode != GameMode.classic || m.queue != Queue.ranked_solo_fives then
    Except.ok ({ s with current_id := s.current_id - 1 },
      [Event.slept sleep_time,
       Event.printed ("Match ID " ++ toString m.id ++
         " does not match criteria of \x275v5 ranked solo queue\x27.")])
  else
    match get_team_stats "blue" m, get_team_stats "red" m with
    | Except.ok bteam_info, Except.ok rteam_info =>
      Except.ok ({ read_records := s.read_records + 1, current_id := s.current_id - 1 },
        [Event.slept sleep_time,
         Event.printed ("Match ID " ++ toString m.id ++ " added. (" ++
           toString (s.read_records + 1) ++ " matches out of " ++
           toString max_records ++ " saved to disk) "),
         Event.fileOpened]
        ++ (if s.read_records = 0 then [Event.wroteRow headerRow] else [])
        ++ [Event.wroteRow bteam_info, Event.wroteRow rteam_info, Event.fileClosed])
    | Except.error e, _ => Except.error e
    | _, Except.error e => Except.error e

/-- The `while read_records < max_records` loop (lines 59-91), run on explicit fuel;
`none` means the run did not complete (fuel exhausted mid-search, or an exception).
The accumulated event trace is threaded through. -/
def loop (env : Int → Match) (max_records sleep_time : Int) :
    Nat → LoopState → List Event → Option (LoopState × List Event)
  | 0, s, tr => if s.read_records < max_records then none else some (s, tr)
  | fuel + 1, s, tr =>
    if s.read_records < max_records then
      match step env max_records sleep_time s with
      | Except.ok (s', evs) => loop env max_records sleep_time fuel s' (tr ++ evs)
      | Except.error _ => none
    else
      some (s, tr)

/-- `get_match_records` (lines 39-91): initialise `read_records := 0` and
`current_id := start_id` and run the retrieval loop. The credential/region setup
(lines 53-54) has no observable effect in this model. -/
def get_match_records (env : Int → Match) (start_id max_records sleep_time : Int)
    (fuel : Nat) : Option (LoopState × List Event) :=
  loop env max_records sleep_time fuel
    { read_records := 0, current_id := start_id } []

/-- The rows written to the output file, read off the event trace. -/
def writtenRows (tr : List Event) : List (List Field) :=
  tr.filterMap (fun e =>
    match e with
    | Event.wroteRow r => some r
    | _ => none)

/-- The output file exists after the run exactly when it was opened at least once
(`open(filename, 'a+')` creates the file). -/
def fileCreated (tr : List Event) : Bool :=
  tr.contains Event.fileOpened

/-- The pair of rows contributed by each accepted match: blue-team row immediately
followed by red-team row. -/
def pairRows (ms : List Match) : List (List Field) :=
  ms.flatMap (fun m => [team_row m m.blue_team, team_row m m.red_team])

/-- The full contents of the output file after a run whose accepted matches are
`ms`, in order: nothing at all when no match was accepted, otherwise the header
row followed by the blue/red row pairs. -/
def fileRows (ms : List Match) : List (List Field) :=
  match ms with
  | [] => []
  | m :: rest => headerRow :: pairRows (m :: rest)

/-- The three fatal usage errors of `main` (lines 107-122). -/
inductive MainError where
  | wrongArgCount (msg : String)
  | invalidIntArg (msg : String)
  | fileAlreadyExists (msg : String)
deriving DecidableEq

/-- Message of the argument-count error (line 109). -/
def wrongArgMsg : String :=
  "Number of arguments given in the command line mismatch the required amount."

/-- Message of the integer-parse error (line 118). -/
def parseErrMsg : String :=
  "Invalid starting match ID or max number of records."

/-- Suffix of the file-exists error message (line 122), appended to the filename. -/
def fileExistsMsgSuffix : String :=
  " already exists. Terminating to prevent data from being overwritten."

/-- Modelled from the spec: the digit-accumulating core of Python `int(...)` —
consumes decimal digits, failing on any non-digit character. -/
def parseDigits : List Char → Nat → Option Nat
  | [], acc => some acc
  | c :: cs, acc =>
    if c.isDigit then parseDigits cs (acc * 10 + (c.toNat - '0'.toNat)) else none

/-- Modelled from the spec: Python `int(str)` conversion of a command-line
argument — an optional sign followed by one or more decimal digits; anything
else raises `ValueError` (here: `none`). -/
def parseInt (s : String) : Option Int :=
  match s.data with
  | [] => none
  | '-' :: cs =>
    match cs with
    | [] => none
    | _ => (parseDigits cs 0).map (fun n => -(n : Int))
  | '+' :: cs =>
    match cs with
    | [] => none
    | _ => (parseDigits cs 0).map (fun n => (n : Int))
  | cs => (parseDigits cs 0).map (fun n => (n : Int))

/-- `main` (lines 94-126): `argv` is the full argument vector including the program
name (`sys.argv`), `path_exists` models `os.path.exists`. Exactly 4 entries are
required; `start_id` and `max_records` must parse as integers (Python `int(...)`,
modelled by `parseInt`); the output path must not exist. Only then does the
retrieval loop run, with the hardcoded `sleep_time = 3`. -/
def main (argv : List String) (path_exists : String → Bool) (env : Int → Match)
    (fuel : Nat) : Except MainError (Option (LoopState × List Event)) :=
  if argv.length ≠ 4 then
    Except.error (MainError.wrongArgCount wrongArgMsg)
  else
    let filename := argv.getD 1 ""
    match parseInt (argv.getD 2 ""), parseInt (argv.getD 3 "") with
    | some start_id, some max_records =>
      if path_exists filename then
        Except.error (MainError.fileAlreadyExists (filename ++ fileExistsMsgSuffix))
      else
        Except.ok (get_match_records env start_id max_records 3 fuel)
    | _, _ => Except.error (MainError.invalidIntArg parseErrMsg)

/-- A concrete well-formed team used for witnesses. -/
def sampleTeam (side : Side) (win : Bool) : Team :=
  { side := side, win := win,
    bans := [some ⟨"Ahri"⟩, none, some ⟨"Zed"⟩, some ⟨"Lux"⟩, some ⟨"Jinx"⟩],
    participants := [⟨⟨"Garen"⟩⟩, ⟨⟨"Lee Sin"⟩⟩, ⟨⟨"Annie"⟩⟩, ⟨⟨"Ezreal"⟩⟩, ⟨⟨"Thresh"⟩⟩],
    tower_kills := 7, inhibitor_kills := 2, dragon_kills := 3,
    rift_herald_kills := 1, baron_kills := 1,
    first_tower := true, first_inhibitor := true, first_dragon := false,
    first_rift_herald := true, first_baron := false }

/-- A concrete match passing the acceptance filter. -/
def sampleMatch (id : Int) : Match :=
  { id := id, version := "11.5.1", existsFlag := true,
    mode := GameMode.classic, queue := Queue.ranked_solo_fives,
    blue_team := sampleTeam ⟨"blue"⟩ true, red_team := sampleTeam ⟨"red"⟩ false }

/-- A concrete non-existent match (rejected by the filter). -/
def missingMatch (id : Int) : Match :=
  { sampleMatch id with existsFlag := false }

/-- An environment in which every probed id is an accepted match. -/
def env1 : Int → Match := fun id => sampleMatch id

/-- An environment in which no probed id exists. -/
def env2 : Int → Match := fun id => missingMatch id

/-- The completed run used by witnesses: one record requested, accepted at once. -/
def run1 : LoopState × List Event :=
  (get_match_records env1 1000 1 0 1).getD ({ read_records := 0, current_id := 0 }, [])

/-- The result of a single accepting iteration, used by witnesses. -/
def stepAcc : LoopState × List Event :=
  (step env1 1 0 { read_records := 0, current_id := 1000 }).toOption.getD
    ({ read_records := 0, current_id := 0 }, [])

/-- The result of a single rejecting iteration, used by witnesses. -/
def stepRej : LoopState × List Event :=
  (step env2 1 0 { read_records := 0, current_id := 1000 }).toOption.getD
    ({ read_records := 0, current_id := 0 }, [])

lemma get_team_stats_blue (m : Match) :
    get_team_stats "blue" m = Except.ok (team_row m m.blue_team) := rfl

lemma get_team_stats_red (m : Match) :
    get_team_stats "red" m = Except.ok (team_row m m.red_team) := rfl

lemma accepts_iff (m : Match) :
    accepts m = true ↔
      (m.existsFlag = true ∧ m.mode = GameMode.classic ∧
        m.queue = Queue.ranked_solo_fives) := by
  simp [accepts, and_assoc]

lemma step_reject (env : Int → Match) (max_records sleep_time : Int) (s : LoopState)
    (h : accepts (env s.current_id) = false) :
    ∃ msg, step env max_records sleep_time s =
      Except.ok ({ s with current_id := s.current_id - 1 },
        [Event.slept sleep_time, Event.printed msg]) := by
  unfold step
  rcases hex : (env s.current_id).existsFlag with _ | _
  · exact ⟨"Match ID " ++ toString (env s.current_id).id ++ " does not exist.",
      by simp [hex]⟩
  · have h2 : ((env s.current_id).mode == GameMode.classic &&
        ((env s.current_id).queue == Queue.ranked_solo_fives)) = false := by
      simpa [accepts, hex] using h
    have h3 : ((env s.current_id).mode != GameMode.classic ||
        ((env s.current_id).queue != Queue.ranked_solo_fives)) = true := by
      simp only [bne, ← Bool.not_and, h2, Bool.not_false]
    exact ⟨"Match ID " ++ toString (env s.current_id).id ++
      " does not match criteria of \x275v5 ranked solo queue\x27.",
      by simp [hex, h3]⟩

lemma step_accept (env : Int → Match) (max_records sleep_time : Int) (s : LoopState)
    (h : accepts (env s.current_id) = true) :
    ∃ msg, step env max_records sleep_time s =
      Except.ok ({ read_records := s.read_records + 1, current_id := s.current_id - 1 },
        [Event.slept sleep_time, Event.printed msg, Event.fileOpened]
        ++ (if s.read_records = 0 then [Event.wroteRow headerRow] else [])
        ++ [Event.wroteRow (team_row (env s.current_id) (env s.current_id).blue_team),
            Event.wroteRow (team_row (env s.current_id) (env s.current_id).red_team),
            Event.fileClosed]) := by
  rw [accepts_iff] at h
  obtain ⟨hex, hmode, hqueue⟩ := h
  refine ⟨"Match ID " ++ toString (env s.current_id).id ++ " added. (" ++
    toString (s.read_records + 1) ++ " matches out of " ++
    toString max_records ++ " saved to disk) ", ?_⟩
  unfold step
  simp [hex, hmode, hqueue, get_team_stats_blue, get_team_stats_red]

lemma writtenRows_append (tr₁ tr₂ : List Event) :
    writtenRows (tr₁ ++ tr₂) = writtenRows tr₁ ++ writtenRows tr₂ :=
  List.filterMap_append tr₁ tr₂ _

lemma pairRows_append (ms₁ ms₂ : List Match) :
    pairRows (ms₁ ++ ms₂) = pairRows ms₁ ++ pairRows ms₂ := by
  simp [pairRows]

lemma pairRows_length (ms : List Match) : (pairRows ms).length = 2 * ms.length := by
  induction ms with
  | nil => rfl
  | cons m ms ih =>
    simp only [pairRows, List.flatMap_cons] at ih ⊢
    simp [ih]
    omega

lemma fileRows_snoc (ms : List Match) (m : Match) :
    fileRows (ms ++ [m]) =
      fileRows ms ++ ((if ms = [] then [headerRow] else []) ++
        [team_row m m.blue_team, team_row m m.red_team]) := by
  cases ms with
  | nil => rfl
  | cons m' ms' =>
    simp [fileRows, pairRows_append, pairRows]

lemma fileRows_length (ms : List Match) (h : ms ≠ []) :
    (fileRows ms).length = 1 + 2 * ms.length := by
  cases ms with
  | nil => exact absurd rfl h
  | cons m ms' =>
    simp [fileRows, pairRows_length]
    omega

lemma team_row_ne_headerRow (m : Match) (t : Team) : team_row m t ≠ headerRow := by
  intro h
  simp [team_row, headerRow] at h

lemma headerRow_not_mem_pairRows (ms : List Match) : headerRow ∉ pairRows ms := by
  intro h
  simp only [pairRows, List.mem_flatMap, List.mem_cons, List.mem_singleton] at h
  obtain ⟨m, _, h | h | h⟩ := h
  · exact team_row_ne_headerRow m _ h.symm
  · exact team_row_ne_headerRow m _ h.symm
  · cases h

lemma fileRows_count_header (ms : List Match) (h : ms ≠ []) :
    (fileRows ms).count headerRow = 1 := by
  cases ms with
  | nil => exact absurd rfl h
  | cons m ms' =>
    rw [fileRows, List.count_cons_self,
      List.count_eq_zero.mpr (headerRow_not_mem_pairRows _)]

lemma loop_sound (env : Int → Match) (max_records sleep_time : Int) :
    ∀ (fuel : Nat) (s : LoopState) (tr : List Event) (ms : List Match)
      (res : LoopState × List Event),
      s.read_records = (ms.length : Int) →
      s.read_records ≤ max_records →
      (∀ m ∈ ms, accepts m = true) →
      writtenRows tr = fileRows ms →
      loop env max_records sleep_time fuel s tr = some res →
      ∃ ms' : List Match,
        res.1.read_records = (ms'.length : Int) ∧
        res.1.read_records = max_records ∧
        (∀ m ∈ ms', accepts m = true) ∧
        writtenRows res.2 = fileRows ms' := by
  intro fuel
  induction fuel with
  | zero =>
    intro s tr ms res h1 h2 h3 h4 hloop
    rw [loop] at hloop
    by_cases hc : s.read_records < max_records
    · simp [hc] at hloop
    · simp only [hc, if_false] at hloop
      obtain rfl := Option.some_injective _ hloop
      refine ⟨ms, h1, ?_, h3, h4⟩
      show s.read_records = max_records
      omega
  | succ fuel ih =>
    intro s tr ms res h1 h2 h3 h4 hloop
    rw [loop] at hloop
    by_cases hc : s.read_records < max_records
    · simp only [hc, if_true] at hloop
      split at hloop
      · rename_i s' evs heq
        by_cases hacc : accepts (env s.current_id) = true
        · obtain ⟨msg, hstep⟩ := step_accept env max_records sleep_time s hacc
          rw [hstep] at heq
          injection heq with h
          injection h with h5 h6
          subst h5
          subst h6
          refine ih _ _ (ms ++ [env s.current_id]) res ?_ ?_ ?_ ?_ hloop
          · show s.read_records + 1 = ((ms ++ [env s.current_id]).length : Int)
            simp only [List.length_append, List.length_singleton]
            push_cast
            omega
          · show s.read_records + 1 ≤ max_records
            omega
          · intro m hm
            rcases List.mem_append.mp hm with hm | hm
            · exact h3 m hm
            · rw [List.mem_singleton.mp hm]
              exact hacc
          · by_cases h0 : s.read_records = 0
            · have hemp : ms = [] := by
                rw [h0] at h1
                exact List.length_eq_zero.mp (by exact_mod_cast h1.symm)
              subst hemp
              rw [writtenRows_append, h4]
              simp [writtenRows, h0, fileRows, pairRows]
            · have hemp : ms ≠ [] := by
                intro he
                subst he
                simp only [List.length_nil, Nat.cast_zero] at h1
                exact h0 h1
              rw [writtenRows_append, h4, fileRows_snoc]
              simp [writtenRows, h0, hemp]
        · obtain ⟨msg, hstep⟩ :=
            step_reject env max_records sleep_time s (by simpa using hacc)
          rw [hstep] at heq
          injection heq with h
          injection h with h5 h6
          subst h5
          subst h6
          refine ih { read_records := s.read_records, current_id := s.current_id - 1 }
            _ ms res h1 (le_of_lt hc) h3 ?_ hloop
          rw [writtenRows_append, h4]
          simp [writtenRows]
      · rename_i e heq
        cases hloop
    · simp only [hc, if_false] at hloop
      obtain rfl := Option.some_injective _ hloop
      refine ⟨ms, h1, ?_, h3, h4⟩
      show s.read_records = max_records
      omega

/-- C1: for every run of `get_match_records` that completes successfully with
`max_records ≥ 1`, the output file contains exactly one header row plus
`2 * max_records` data rows — two rows per accepted match, the loop stopping as
soon as the accepted count reaches `max_records`. -/
theorem get_match_records_row_count (env : Int → Match)
    (start_id max_records sleep_time : Int) (fuel : Nat) (res : LoopState × List Event)
    (hmax : 1 ≤ max_records)
    (hrun : get_match_records env start_id max_records sleep_time fuel = some res) :
    (writtenRows res.2).length = 1 + 2 * max_records.toNat := by
  obtain ⟨ms, hlen, hmaxeq, hacc, hrows⟩ :=
    loop_sound env max_records sleep_time fuel _ [] [] res (by simp)
      (by show (0 : Int) ≤ max_records; omega) (by simp) rfl hrun
  have hne : ms ≠ [] := by
    intro he
    subst he
    simp only [List.length_nil, Nat.cast_zero] at hlen
    omega
  rw [hrows, fileRows_length ms hne]
  omega

/-- Witness for C1: a concrete completed run with `max_records = 1` yields
`1 + 2` rows. -/
theorem get_match_records_row_count_witness :
    (writtenRows run1.2).length = 1 + 2 * (1 : Int).toNat :=
  get_match_records_row_count env1 1000 1 0 1 run1 (by decide) rfl

/-- C2: in every iteration of the retrieval loop, `current_id` is decremented by
exactly one whether the fetched record is accepted or rejected, and `read_records`
is incremented by exactly one when it is accepted and left unchanged when it is
rejected. -/
theorem step_id_counter (env : Int → Match) (max_records sleep_time : Int)
    (s : LoopState) (res : LoopState × List Event)
    (h : step env max_records sleep_time s = Except.ok res) :
    res.1.current_id = s.current_id - 1 ∧
    (accepts (env s.current_id) = true → res.1.read_records = s.read_records + 1) ∧
    (accepts (env s.current_id) = false → res.1.read_records = s.read_records) := by
  by_cases hacc : accepts (env s.current_id) = true
  · obtain ⟨msg, hstep⟩ := step_accept env max_records sleep_time s hacc
    rw [hstep] at h
    injection h with h'
    subst h'
    refine ⟨rfl, fun _ => rfl, fun hf => ?_⟩
    rw [hacc] at hf
    cases hf
  · have hacc' : accepts (env s.current_id) = false := by simpa using hacc
    obtain ⟨msg, hstep⟩ := step_reject env max_records sleep_time s hacc'
    rw [hstep] at h
    injection h with h'
    subst h'
    exact ⟨rfl, fun ht => absurd ht hacc, fun _ => rfl⟩

/-- Witness for C2: one concrete accepting iteration decrements the id from 1000 to
999 and increments the counter from 0 to 1. -/
theorem step_id_counter_witness :
    stepAcc.1.current_id = (1000 : Int) - 1 ∧
    (accepts (env1 1000) = true → stepAcc.1.read_records = (0 : Int) + 1) ∧
    (accepts (env1 1000) = false → stepAcc.1.read_records = 0) :=
  step_id_counter env1 1 0 { read_records := 0, current_id := 1000 } stepAcc rfl

/-- C3 (amended): when `get_match_records` is called with `max_records = 0`, the
loop performs zero iterations and writes no data rows, and the output file is NOT
created: the trace holds no events at all, in particular no file-open event (the
file is only ever created by `open(..., 'a+')` inside the accept branch). -/
theorem get_match_records_zero_records (env : Int → Match)
    (start_id sleep_time : Int) (fuel : Nat) :
    get_match_records env start_id 0 sleep_time fuel =
      some ({ read_records := 0, current_id := start_id }, []) ∧
    writtenRows [] = [] ∧ fileCreated [] = false := by
  refine ⟨?_, rfl, rfl⟩
  cases fuel <;> rw [get_match_records, loop] <;> simp

/-- Counterexample for C3 as stated: a concrete completed run with
`max_records = 0` has no file-open event in its trace, so the output file is not
created, while `fileCreated` does hold on any trace that opens the file. -/
theorem get_match_records_zero_records_counterexample :
    (get_match_records env1 1000 0 3 5).map (fun r => fileCreated r.2) = some false ∧
    fileCreated [Event.fileOpened] = true := by
  exact ⟨rfl, rfl⟩

/-- C4: a fetched match is accepted — the file is opened and the two team rows are
appended — if and only if it exists, its game mode is classic and its queue is
ranked solo fives; a record failing any of the three conditions causes no write. -/
theorem accept_filter (env : Int → Match) (max_records sleep_time : Int)
    (s : LoopState) (res : LoopState × List Event)
    (h : step env max_records sleep_time s = Except.ok res) :
    (((env s.current_id).existsFlag = true ∧
      (env s.current_id).mode = GameMode.classic ∧
      (env s.current_id).queue = Queue.ranked_solo_fives) ↔
      (Event.fileOpened ∈ res.2 ∧
       Event.wroteRow (team_row (env s.current_id) (env s.current_id).blue_team) ∈ res.2 ∧
       Event.wroteRow (team_row (env s.current_id) (env s.current_id).red_team) ∈ res.2)) ∧
    (¬ ((env s.current_id).existsFlag = true ∧
      (env s.current_id).mode = GameMode.classic ∧
      (env s.current_id).queue = Queue.ranked_solo_fives) →
      writtenRows res.2 = []) := by
  by_cases hacc : accepts (env s.current_id) = true
  · obtain ⟨msg, hstep⟩ := step_accept env max_records sleep_time s hacc
    rw [hstep] at h
    injection h with h'
    subst h'
    constructor
    · constructor
      · intro _
        refine ⟨by simp, by simp, by simp⟩
      · intro _
        exact (accepts_iff _).mp hacc
    · intro hcontra
      exact absurd ((accepts_iff _).mp hacc) hcontra
  · have hacc' : accepts (env s.current_id) = false := by simpa using hacc
    obtain ⟨msg, hstep⟩ := step_reject env max_records sleep_time s hacc'
    rw [hstep] at h
    injection h with h'
    subst h'
    constructor
    · constructor
      · intro hc
        exact absurd ((accepts_iff _).mpr hc) hacc
      · intro hmem
        have := hmem.1
        simp at this
    · intro _
      rfl

/-- Witness for C4: the acceptance equivalence at one concrete accepting
iteration. -/
theorem accept_filter_witness :
    ((env1 1000).existsFlag = true ∧ (env1 1000).mode = GameMode.classic ∧
      (env1 1000).queue = Queue.ranked_solo_fives) ↔
      (Event.fileOpened ∈ stepAcc.2 ∧
       Event.wroteRow (team_row (env1 1000) (env1 1000).blue_team) ∈ stepAcc.2 ∧
       Event.wroteRow (team_row (env1 1000) (env1 1000).red_team) ∈ stepAcc.2) :=
  (accept_filter env1 1 0 { read_records := 0, current_id := 1000 } stepAcc rfl).1

/-- C5: in every completed run with `max_records ≥ 1` the header row appears
exactly once in the output file and is its first row; and in any iteration the
header is written precisely when the record is accepted while the in-process
counter `read_records` is zero — `step` receives no file contents at all, so the
decision is made from the counter, never by inspecting the file. -/
theorem header_once (env : Int → Match) (start_id max_records sleep_time : Int)
    (fuel : Nat) (res : LoopState × List Event)
    (hmax : 1 ≤ max_records)
    (hrun : get_match_records env start_id max_records sleep_time fuel = some res) :
    (writtenRows res.2).head? = some headerRow ∧
    (writtenRows res.2).count headerRow = 1 ∧
    (∀ (s : LoopState) (res' : LoopState × List Event),
      step env max_records sleep_time s = Except.ok res' →
      (Event.wroteRow headerRow ∈ res'.2 ↔
        (accepts (env s.current_id) = true ∧ s.read_records = 0))) := by
  obtain ⟨ms, hlen, hmaxeq, hacc, hrows⟩ :=
    loop_sound env max_records sleep_time fuel _ [] [] res (by simp)
      (by show (0 : Int) ≤ max_records; omega) (by simp) rfl hrun
  have hne : ms ≠ [] := by
    intro he
    subst he
    simp only [List.length_nil, Nat.cast_zero] at hlen
    omega
  refine ⟨?_, ?_, ?_⟩
  · rw [hrows]
    cases ms with
    | nil => exact absurd rfl hne
    | cons m ms' => rfl
  · rw [hrows]
    exact fileRows_count_header ms hne
  · intro s res' hstep'
    by_cases hacc' : accepts (env s.current_id) = true
    · obtain ⟨msg, hstep⟩ := step_accept env max_records sleep_time s hacc'
      rw [hstep] at hstep'
      injection hstep' with h'
      subst h'
      constructor
      · intro hmem
        refine ⟨hacc', ?_⟩
        by_cases h0 : s.read_records = 0
        · exact h0
        · exfalso
          rw [if_neg h0] at hmem
          simp only [List.append_nil, List.mem_append, List.mem_cons,
            List.not_mem_nil, or_false] at hmem
          rcases hmem with (h | h | h) | (h | h | h) <;> cases h
      · rintro ⟨_, h0⟩
        rw [if_pos h0]
        simp
    · have hacc'' : accepts (env s.current_id) = false := by simpa using hacc'
      obtain ⟨msg, hstep⟩ := step_reject env max_records sleep_time s hacc''
      rw [hstep] at hstep'
      injection hstep' with h'
      subst h'
      constructor
      · intro hmem
        simp at hmem
      · rintro ⟨ha, _⟩
        exact absurd ha hacc'

/-- Witness for C5: the header facts at a concrete completed run. -/
theorem header_once_witness :
    (writtenRows run1.2).head? = some headerRow ∧
    (writtenRows run1.2).count headerRow = 1 :=
  ⟨(header_once env1 1000 1 0 1 run1 (by decide) rfl).1,
   (header_once env1 1000 1 0 1 run1 (by decide) rfl).2.1⟩

/-- C6: after every completed run there is a list of accepted matches such that the
file contents are exactly the header followed by, for each accepted match in
order, its blue-team row immediately followed by its red-team row. -/
theorem blue_before_red (env : Int → Match) (start_id max_records sleep_time : Int)
    (fuel : Nat) (res : LoopState × List Event)
    (hrun : get_match_records env start_id max_records sleep_time fuel = some res) :
    ∃ ms : List Match, (∀ m ∈ ms, accepts m = true) ∧
      writtenRows res.2 = fileRows ms ∧
      pairRows ms =
        ms.flatMap (fun m => [team_row m m.blue_team, team_row m m.red_team]) := by
  by_cases hm : (0 : Int) ≤ max_records
  · obtain ⟨ms, hlen, hmaxeq, hacc, hrows⟩ :=
      loop_sound env max_records sleep_time fuel _ [] [] res (by simp)
        (by show (0 : Int) ≤ max_records; omega) (by simp) rfl hrun
    exact ⟨ms, hacc, hrows, rfl⟩
  · have hlt : ¬ (({ read_records := 0, current_id := start_id } :
        LoopState).read_records < max_records) := by
      show ¬ ((0 : Int) < max_records)
      omega
    rw [get_match_records] at hrun
    refine ⟨[], by simp, ?_, rfl⟩
    cases fuel with
    | zero =>
      rw [loop, if_neg hlt] at hrun
      obtain rfl := Option.some_injective _ hrun
      rfl
    | succ fuel =>
      rw [loop, if_neg hlt] at hrun
      obtain rfl := Option.some_injective _ hrun
      rfl

/-- Witness for C6: the structure of the file after a concrete completed run. -/
theorem blue_before_red_witness :
    ∃ ms : List Match, (∀ m ∈ ms, accepts m = true) ∧
      writtenRows run1.2 = fileRows ms ∧
      pairRows ms =
        ms.flatMap (fun m => [team_row m m.blue_team, team_row m m.red_team]) :=
  blue_before_red env1 1000 1 0 1 run1 rfl

/-- C10: an iteration whose fetched record is rejected leaves the output file
completely untouched — its whole event trace is one sleep and one progress print:
the file is never opened, no row is written, and it is never closed. -/
theorem reject_frame (env : Int → Match) (max_records sleep_time : Int)
    (s : LoopState) (res : LoopState × List Event)
    (h : step env max_records sleep_time s = Except.ok res)
    (hrej : accepts (env s.current_id) = false) :
    (∃ msg, res.2 = [Event.slept sleep_time, Event.printed msg]) ∧
    Event.fileOpened ∉ res.2 ∧ (∀ r, Event.wroteRow r ∉ res.2) ∧
    Event.fileClosed ∉ res.2 ∧ writtenRows res.2 = [] := by
  obtain ⟨msg, hstep⟩ := step_reject env max_records sleep_time s hrej
  rw [hstep] at h
  injection h with h'
  subst h'
  exact ⟨⟨msg, rfl⟩, by simp, fun r => by simp, by simp, rfl⟩

/-- Witness for C10: one concrete rejected iteration touches no file. -/
theorem reject_frame_witness :
    Event.fileOpened ∉ stepRej.2 ∧ writtenRows stepRej.2 = [] :=
  ⟨(reject_frame env2 1 0 { read_records := 0, current_id := 1000 } stepRej rfl
      (by decide)).2.1,
   (reject_frame env2 1 0 { read_records := 0, current_id := 1000 } stepRej rfl
      (by decide)).2.2.2.2⟩

/-- An empty ban slot contributes the empty string at offset `4 + i` of the row. -/
lemma team_row_get_ban (m : Match) (t : Team) (i : Nat)
    (h : t.bans[i]? = some none) :
    (team_row m t)[4 + i]? = some (Field.str "") := by
  have hi : i < t.bans.length := by
    by_contra hge
    rw [List.getElem?_eq_none (le_of_not_lt hge)] at h
    cases h
  have hrow : team_row m t =
      Field.int m.id :: Field.str m.version :: Field.str t.side.name ::
        Field.bool t.win ::
        (t.bans.map (fun ban => match ban with
          | some b => Field.str b.name
          | none => Field.str "") ++
          (t.participants.map (fun p => Field.str p.champion.name) ++
            [Field.int t.tower_kills, Field.int t.inhibitor_kills,
             Field.int t.dragon_kills, Field.int t.rift_herald_kills,
             Field.int t.baron_kills, Field.bool t.first_tower,
             Field.bool t.first_inhibitor, Field.bool t.first_dragon,
             Field.bool t.first_rift_herald, Field.bool t.first_baron])) := by
    simp [team_row]
  rw [hrow]
  have h4i : 4 + i = (((i + 1) + 1) + 1) + 1 := by omega
  rw [h4i]
  simp only [List.getElem?_cons_succ]
  rw [List.getElem?_append_left (by simpa using hi), List.getElem?_map, h]
  rfl

/-- Evaluation of `main` when the argument count is right and both integer
arguments parse. -/
lemma main_eq_of_parse (argv : List String) (path_exists : String → Bool)
    (env : Int → Match) (fuel : Nat) (h4 : argv.length = 4) (a b : Int)
    (ha : parseInt (argv.getD 2 "") = some a)
    (hb : parseInt (argv.getD 3 "") = some b) :
    main argv path_exists env fuel =
      if path_exists (argv.getD 1 "") then
        Except.error (MainError.fileAlreadyExists
          ((argv.getD 1 "") ++ fileExistsMsgSuffix))
      else
        Except.ok (get_match_records env a b 3 fuel) := by
  unfold main
  rw [if_neg (by omega)]
  show (match parseInt (argv.getD 2 ""), parseInt (argv.getD 3 "") with
    | some start_id, some max_records =>
      if path_exists (argv.getD 1 "") then
        Except.error (MainError.fileAlreadyExists
          ((argv.getD 1 "") ++ fileExistsMsgSuffix))
      else
        Except.ok (get_match_records env start_id max_records 3 fuel)
    | _, _ => Except.error (MainError.invalidIntArg parseErrMsg)) = _
  rw [ha, hb]

/-- Evaluation of `main` when the argument count is right but one of the integer
arguments fails to parse. -/
lemma main_eq_parse_error (argv : List String) (path_exists : String → Bool)
    (env : Int → Match) (fuel : Nat) (h4 : argv.length = 4)
    (h : parseInt (argv.getD 2 "") = none ∨ parseInt (argv.getD 3 "") = none) :
    main argv path_exists env fuel =
      Except.error (MainError.invalidIntArg parseErrMsg) := by
  unfold main
  rw [if_neg (by omega)]
  show (match parseInt (argv.getD 2 ""), parseInt (argv.getD 3 "") with
    | some start_id, some max_records =>
      if path_exists (argv.getD 1 "") then
        Except.error (MainError.fileAlreadyExists
          ((argv.getD 1 "") ++ fileExistsMsgSuffix))
      else
        Except.ok (get_match_records env start_id max_records 3 fuel)
    | _, _ => Except.error (MainError.invalidIntArg parseErrMsg)) = _
  cases ha : parseInt (argv.getD 2 "") with
  | none =>
    cases hb : parseInt (argv.getD 3 "") with
    | none => rfl
    | some b => rfl
  | some a =>
    cases hb : parseInt (argv.getD 3 "") with
    | none => rfl
    | some b =>
      rw [ha, hb] at h
      rcases h with h | h <;> cases h

/-- C7: `main` fails with the argument-count error when given other than exactly
three positional arguments (four `sys.argv` entries), with the parse error when
`start_id` or `max_records` does not parse as an integer, and with the
file-exists error when the output path already exists; in each case the result is
an error that is identical for every remote environment and every fuel — no
remote call is made — and carries no trace, so nothing is written. -/
theorem main_usage_errors (argv : List String) (path_exists : String → Bool)
    (env env' : Int → Match) (fuel fuel' : Nat) :
    (argv.length ≠ 4 →
      main argv path_exists env fuel =
        Except.error (MainError.wrongArgCount wrongArgMsg) ∧
      main argv path_exists env fuel = main argv path_exists env' fuel') ∧
    (argv.length = 4 →
      (parseInt (argv.getD 2 "") = none ∨ parseInt (argv.getD 3 "") = none) →
      main argv path_exists env fuel =
        Except.error (MainError.invalidIntArg parseErrMsg) ∧
      main argv path_exists env fuel = main argv path_exists env' fuel') ∧
    (argv.length = 4 →
      (∀ (a b : Int), parseInt (argv.getD 2 "") = some a →
        parseInt (argv.getD 3 "") = some b →
        path_exists (argv.getD 1 "") = true →
        main argv path_exists env fuel =
          Except.error (MainError.fileAlreadyExists
            ((argv.getD 1 "") ++ fileExistsMsgSuffix)) ∧
        main argv path_exists env fuel = main argv path_exists env' fuel')) := by
  refine ⟨?_, ?_, ?_⟩
  · intro hlen
    constructor <;> simp [main, hlen]
  · intro hlen hparse
    exact ⟨main_eq_parse_error argv path_exists env fuel hlen hparse,
      (main_eq_parse_error argv path_exists env fuel hlen hparse).trans
        (main_eq_parse_error argv path_exists env' fuel' hlen hparse).symm⟩
  · intro hlen a b ha hb hex
    constructor
    · rw [main_eq_of_parse argv path_exists env fuel hlen a b ha hb, if_pos hex]
    · rw [main_eq_of_parse argv path_exists env fuel hlen a b ha hb,
        main_eq_of_parse argv path_exists env' fuel' hlen a b ha hb,
        if_pos hex, if_pos hex]

/-- Witness for C7: the three usage errors at concrete command lines. -/
theorem main_usage_errors_witness :
    main ["prog"] (fun _ => false) env1 1 =
      Except.error (MainError.wrongArgCount wrongArgMsg) ∧
    main ["prog", "out.csv", "abc", "5"] (fun _ => false) env1 1 =
      Except.error (MainError.invalidIntArg parseErrMsg) ∧
    main ["prog", "out.csv", "1000", "5"] (fun _ => true) env1 1 =
      Except.error (MainError.fileAlreadyExists ("out.csv" ++ fileExistsMsgSuffix)) :=
  ⟨((main_usage_errors ["prog"] (fun _ => false) env1 env1 1 1).1 (by decide)).1,
   ((main_usage_errors ["prog", "out.csv", "abc", "5"] (fun _ => false) env1 env1
      1 1).2.1 rfl (Or.inl (by decide))).1,
   ((main_usage_errors ["prog", "out.csv", "1000", "5"] (fun _ => true) env1 env1
      1 1).2.2 rfl 1000 5 (by decide) (by decide) rfl).1⟩

/-- C8: every empty ban slot of a team yields the empty string in the
corresponding output field (offset `4 + i` of the row), and any team selector
other than red or blue makes `get_team_stats` fail with the invalid-argument
error, producing no row. -/
theorem ban_slots_and_selector (m : Match) (t : String) (i : Nat) :
    (t ≠ "red" → t ≠ "blue" →
      get_team_stats t m = Except.error unknownTeamMsg) ∧
    (∀ row, get_team_stats "blue" m = Except.ok row →
      m.blue_team.bans[i]? = some none →
      row[4 + i]? = some (Field.str "")) ∧
    (∀ row, get_team_stats "red" m = Except.ok row →
      m.red_team.bans[i]? = some none →
      row[4 + i]? = some (Field.str "")) := by
  refine ⟨?_, ?_, ?_⟩
  · intro hr hb
    unfold get_team_stats
    rw [if_neg hr, if_neg hb]
  · intro row hok hban
    rw [get_team_stats_blue] at hok
    injection hok with h'
    subst h'
    exact team_row_get_ban m m.blue_team i hban
  · intro row hok hban
    rw [get_team_stats_red] at hok
    injection hok with h'
    subst h'
    exact team_row_get_ban m m.red_team i hban

/-- Witness for C8: an unknown selector errors and a concrete empty second ban
slot yields the empty string at offset 5. -/
theorem ban_slots_and_selector_witness :
    get_team_stats "green" (sampleMatch 7) = Except.error unknownTeamMsg ∧
    (team_row (sampleMatch 7) (sampleMatch 7).blue_team)[4 + 1]? =
      some (Field.str "") :=
  ⟨(ban_slots_and_selector (sampleMatch 7) "green" 1).1 (by decide) (by decide),
   (ban_slots_and_selector (sampleMatch 7) "green" 1).2.1 _
     (get_team_stats_blue _) (by decide)⟩

/-- C9: for a well-formed team (five ban slots, five participants, as the spec's
data model guarantees for the remote service) every row produced by
`get_team_stats` has exactly 24 fields in the fixed order: match id, version,
side name, win flag, the 5 ban names, the 5 champion names, then the 10
objective statistics. -/
theorem row_shape (m : Match) (t : Team) (sel : String)
    (hsel : (sel = "blue" ∧ t = m.blue_team) ∨ (sel = "red" ∧ t = m.red_team))
    (hwf : t.wellFormed) :
    get_team_stats sel m = Except.ok (team_row m t) ∧
    team_row m t =
      [Field.int m.id, Field.str m.version, Field.str t.side.name,
        Field.bool t.win] ++
        t.bans.map (fun ban => match ban with
          | some b => Field.str b.name
          | none => Field.str "") ++
        t.participants.map (fun p => Field.str p.champion.name) ++
        [Field.int t.tower_kills, Field.int t.inhibitor_kills,
         Field.int t.dragon_kills, Field.int t.rift_herald_kills,
         Field.int t.baron_kills, Field.bool t.first_tower,
         Field.bool t.first_inhibitor, Field.bool t.first_dragon,
         Field.bool t.first_rift_herald, Field.bool t.first_baron] ∧
    (team_row m t).length = 24 := by
  obtain ⟨hb, hp⟩ := hwf
  refine ⟨?_, rfl, ?_⟩
  · rcases hsel with ⟨hs, ht⟩ | ⟨hs, ht⟩ <;> subst hs <;> subst ht
    · exact get_team_stats_blue m
    · exact get_team_stats_red m
  · simp [team_row, hb, hp]

/-- Witness for C9: the blue-team row of a concrete match has 24 fields. -/
theorem row_shape_witness :
    (team_row (sampleMatch 7) (sampleMatch 7).blue_team).length = 24 :=
  (row_shape (sampleMatch 7) (sampleMatch 7).blue_team "blue" (Or.inl ⟨rfl, rfl⟩)
    (by decide)).2.2

end RetrieveMatches
